import Mathlib

/-!
Verification of the P2P video analyzer session core.

This file shallowly embeds the signaling and session-negotiation state
machine of the application component (role transitions, the
BroadcastChannel message handler, the connection factory and lifecycle
callbacks, the cleanup routine and the analysis trigger) together with
the signaling message types.

Opaque protocol payloads (session descriptions, candidate descriptors,
analysis results) are represented by natural-number tokens.  The
descriptions generated by the transport (createOffer / createAnswer) are
supplied through an environment record, so theorems quantify over every
possible generated payload.  Every connection object ever created is
kept in an arena list so that connections replaced without being closed
remain observable; the peerConnection field is the arena index of the
connection currently held by the peerConnection ref.

The signaling subscription swap performed by the role-keyed effect
(close the old BroadcastChannel, run cleanup, open a fresh channel) is
modelled by the effectCycle function, placed at its real execution
point relative to the await points of each user action: startHost
suspends on getUserMedia immediately after the role change, so its
effect cycle runs before any stream or connection is created, while
joinPeer and the End Session handler are synchronous, so their effect
cycle runs after their whole body.
-/

namespace P2P

/-- Roles of the local participant (AppRole in the types module). -/
inductive AppRole
  | HOST
  | PEER
  | IDLE
deriving DecidableEq

/-- Kinds of signaling messages (SignalingMessage.type). -/
inductive MsgType
  | offer
  | answer
  | candidate
deriving DecidableEq

/-- A signaling message envelope (SignalingMessage): a kind, an opaque
payload and a sender tag that the handler never inspects. -/
structure Msg where
  type : MsgType
  payload : Nat
  senderId : AppRole
deriving DecidableEq

/-- Connectivity states of the transport (RTCPeerConnectionState); the
closed state marks a connection on which close() has been called. -/
inductive ConnState
  | new
  | connecting
  | connected
  | disconnected
  | failed
  | closed
deriving DecidableEq

/-- One RTCPeerConnection object: its local and remote descriptions, the
remote candidates the transport has accepted, and its connectivity
state. -/
structure Conn where
  localDesc : Option Nat
  remoteDesc : Option Nat
  remoteCandidates : List Nat
  connectionState : ConnState
deriving DecidableEq

/-- A freshly constructed connection. -/
def freshConn : Conn :=
  ⟨none, none, [], ConnState.new⟩

/-- A local media stream; stopped records whether its tracks have been
stopped. -/
structure MediaStream where
  stopped : Bool
deriving DecidableEq

/-- The component state: the five useState cells (role, isLive,
isAnalyzing, history, error), the refs (peerConnection as an index into
the conns arena, localStream), the current signaling subscription epoch,
the list of messages published on the channel, and a count of
invocations of the external analysis service. -/
structure AppState where
  role : AppRole
  isLive : Bool
  isAnalyzing : Bool
  history : List Nat
  error : Option String
  conns : List Conn
  peerConnection : Option Nat
  localStream : Option MediaStream
  subscribedEpoch : Nat
  outbox : List Msg
  analysisCalls : Nat
deriving DecidableEq

/-- The state of a freshly mounted component. -/
def initState : AppState :=
  ⟨AppRole.IDLE, false, false, [], none, [], none, none, 0, [], 0⟩

/-- The payloads the transport generates for createOffer and
createAnswer; kept abstract so results hold for every generated
description. -/
structure Env where
  offerPayload : Nat
  answerPayload : Nat

/-- Update the current connection through a function, leaving the state
unchanged when no connection exists. -/
def updCurrent (s : AppState) (f : Conn → Conn) : AppState :=
  match s.peerConnection with
  | none => s
  | some j =>
    match s.conns[j]? with
    | none => s
    | some c => { s with conns := s.conns.set j (f c) }

/-- The cleanup routine: stop the tracks of the attached local stream,
close the current connection, null the peerConnection ref and clear
isLive.  The localStream ref itself is not nulled, matching the code. -/
def cleanup (s : AppState) : AppState :=
  let s1 := updCurrent s (fun c => { c with connectionState := ConnState.closed })
  { s1 with
    localStream := s1.localStream.map (fun _ => ⟨true⟩),
    peerConnection := none,
    isLive := false }

/-- The role-keyed signaling effect: on every role change the previous
effect teardown closes the old BroadcastChannel and runs cleanup, then
the effect body subscribes on a fresh channel.  Modelled as cleanup
followed by an epoch increment: the old subscription epoch is released
and a new one becomes current. -/
def effectCycle (s : AppState) : AppState :=
  let s1 := cleanup s
  { s1 with subscribedEpoch := s1.subscribedEpoch + 1 }

/-- The connection factory: construct a fresh connection and make it
current.  The previously current connection, if any, is not closed. -/
def createPeerConnection (s : AppState) : AppState :=
  { s with conns := s.conns ++ [freshConn], peerConnection := some s.conns.length }

/-- The offer handler: when no connection exists return silently;
otherwise apply the offer as the remote description, generate the
answer, set it as the local description and publish it with the PEER
sender tag. -/
def handleOffer (env : Env) (s : AppState) (payload : Nat) : AppState :=
  match s.peerConnection with
  | none => s
  | some j =>
    match s.conns[j]? with
    | none => s
    | some c =>
      { s with
        conns := s.conns.set j
          { c with remoteDesc := some payload, localDesc := some env.answerPayload },
        outbox := s.outbox ++ [⟨MsgType.answer, env.answerPayload, AppRole.PEER⟩] }

/-- The answer handler: when no connection exists return silently;
otherwise apply the answer as the remote description. -/
def handleAnswer (s : AppState) (payload : Nat) : AppState :=
  match s.peerConnection with
  | none => s
  | some j =>
    match s.conns[j]? with
    | none => s
    | some c => { s with conns := s.conns.set j { c with remoteDesc := some payload } }

/-- Modelled from the spec: the transport operation
RTCPeerConnection.addIceCandidate is external browser code absent from
the repository sources.  Section 9 of the design records that a
candidate applied while no remote description is set is rejected or
silently ignored by the transport; we model it as accepted (appended to
the accepted remote-candidate list) exactly when a remote description
is present, and as a rejection error otherwise. -/
def addIceCandidate (c : Conn) (payload : Nat) : Except Unit Conn :=
  if c.remoteDesc.isSome then
    Except.ok { c with remoteCandidates := c.remoteCandidates ++ [payload] }
  else
    Except.error ()

/-- The BroadcastChannel message handler: drop everything while IDLE;
process offers only as PEER, answers only as HOST, candidates only when
a connection exists; a signal-handling error (a candidate the transport
rejects) is caught and logged, leaving the state unchanged.  The sender
tag of the message is never inspected. -/
def onmessage (env : Env) (s : AppState) (msg : Msg) : AppState :=
  if s.role = AppRole.IDLE then s
  else if msg.type = MsgType.offer ∧ s.role = AppRole.PEER then
    handleOffer env s msg.payload
  else if msg.type = MsgType.answer ∧ s.role = AppRole.HOST then
    handleAnswer s msg.payload
  else if msg.type = MsgType.candidate ∧ s.peerConnection.isSome then
    match s.peerConnection with
    | none => s
    | some j =>
      match s.conns[j]? with
      | none => s
      | some c =>
        match addIceCandidate c msg.payload with
        | Except.ok c1 => { s with conns := s.conns.set j c1 }
        | Except.error _ => s
  else s

/-- The error message set when local capture access fails. -/
def camError : String := "Camera access failed. Check permissions."

/-- The error message set when the analysis service fails. -/
def aiError : String := "AI analysis failed. Please ensure your API_KEY is valid and try again."

/-- The startHost action with successful media acquisition: the role is
set to HOST first; the getUserMedia await lets the role-change effect
cycle run; then the stream is attached, a connection is created with
the local tracks added, an offer is generated, set as the local
description and published with the HOST sender tag, and isLive is set
optimistically. -/
def startHostOk (env : Env) (s : AppState) : AppState :=
  let s1 := effectCycle { s with role := AppRole.HOST }
  let s2 := createPeerConnection { s1 with localStream := some ⟨false⟩ }
  let s3 := updCurrent s2 (fun c => { c with localDesc := some env.offerPayload })
  { s3 with
    outbox := s3.outbox ++ [⟨MsgType.offer, env.offerPayload, AppRole.HOST⟩],
    isLive := true }

/-- The startHost action when getUserMedia fails: the role has already
been set to HOST and the role-change effect cycle has run during the
await; the catch block only records the error message.  The role is not
reverted and no connection or stream is created. -/
def startHostErr (s : AppState) : AppState :=
  let s1 := effectCycle { s with role := AppRole.HOST }
  { s1 with error := some camError }

/-- The joinPeer action: set the role to PEER and synchronously create a
connection; the role-change effect cycle then runs, and its teardown
cleanup closes the connection just created and nulls the ref. -/
def joinPeer (s : AppState) : AppState :=
  effectCycle (createPeerConnection { s with role := AppRole.PEER })

/-- The End Session button handler (rendered only while the role is
non-IDLE): run cleanup, set the role to IDLE; the role-change effect
cycle follows. -/
def endSession (s : AppState) : AppState :=
  effectCycle { cleanup s with role := AppRole.IDLE }

/-- The connection-state callback: the transport moves the current
connection to a new connectivity state; isLive is set on connected and
cleared on disconnected or failed, and no other observable changes. -/
def connStateChange (s : AppState) (cs : ConnState) : AppState :=
  match s.peerConnection with
  | none => s
  | some j =>
    match s.conns[j]? with
    | none => s
    | some c =>
      let s1 := { s with conns := s.conns.set j { c with connectionState := cs } }
      if cs = ConnState.connected then { s1 with isLive := true }
      else if cs = ConnState.disconnected ∨ cs = ConnState.failed then
        { s1 with isLive := false }
      else s1

/-- The remote-track callback: when the remote video element is mounted,
the stream is attached to it and isLive is set. -/
def ontrackEvent (s : AppState) (remoteVideoPresent : Bool) : AppState :=
  if remoteVideoPresent then { s with isLive := true } else s

/-- The data the core publishes to its consumers on every render: the
props and rendered state reaching the controls, the status panel and the
insight list are exactly the role, isLive, isAnalyzing, history and
error fields; nothing else of the core state is observable outside. -/
def published (s : AppState) : AppRole × Bool × Bool × List Nat × Option String :=
  (s.role, s.isLive, s.isAnalyzing, s.history, s.error)

/-- The analysis trigger: return at once while a prior analysis is
outstanding; otherwise mark the analysis in flight and clear the error;
bail out if the video element is missing (a return placed before the
try block, so that path leaves the in-flight flag set) or the canvas
context is missing (inside the try block, so the finally clause resets
the flag); otherwise invoke the external analysis service exactly once
on the captured frames: a success is prepended to the history, a
failure records the error message, and the finally clause clears the
in-flight flag. -/
def runAnalysis (s : AppState) (videoPresent ctxOk : Bool)
    (outcome : Except Unit Nat) : AppState :=
  if s.isAnalyzing then s
  else
    let s1 := { s with isAnalyzing := true, error := none }
    if videoPresent = false then s1
    else if ctxOk = false then { s1 with isAnalyzing := false }
    else
      match outcome with
      | Except.ok r =>
        { s1 with
          history := r :: s1.history,
          analysisCalls := s1.analysisCalls + 1,
          isAnalyzing := false }
      | Except.error _ =>
        { s1 with
          error := some aiError,
          analysisCalls := s1.analysisCalls + 1,
          isAnalyzing := false }

/-- Modelled from the spec: the mandated candidate-buffering contract of
sections 4.3 and 8, absent from the sources.  A connection under the
buffering contract keeps the applied candidates and a pending buffer. -/
structure BufConn where
  remoteDesc : Option Nat
  applied : List Nat
  pending : List Nat
deriving DecidableEq

/-- Modelled from the spec: a buffering connection before any message. -/
def bufInit : BufConn := ⟨none, [], []⟩

/-- Modelled from the spec: receive one candidate under the buffering
contract; it is applied when the remote description is set and buffered
otherwise. -/
def bufCandidate (c : BufConn) (p : Nat) : BufConn :=
  if c.remoteDesc.isSome then { c with applied := c.applied ++ [p] }
  else { c with pending := c.pending ++ [p] }

/-- Modelled from the spec: apply the remote description and flush the
buffered candidates in arrival order. -/
def bufSetRemote (c : BufConn) (d : Nat) : BufConn :=
  ⟨some d, c.applied ++ c.pending, []⟩

/-- The concrete environment used by the closed evaluations. -/
def env0 : Env := ⟨10, 11⟩

/-- A Responder that has joined and holds a fresh connection with no
remote description yet: the state of the claimed buffering scenario. -/
def peerAwaitingOffer : AppState :=
  { initState with
    role := AppRole.PEER,
    conns := [freshConn],
    peerConnection := some 0 }

/-- An Initiator that has sent its offer and awaits the answer. -/
def hostAwaitingAnswer : AppState :=
  { initState with
    role := AppRole.HOST,
    conns := [{ freshConn with localDesc := some 10 }],
    peerConnection := some 0,
    localStream := some ⟨false⟩,
    outbox := [⟨MsgType.offer, 10, AppRole.HOST⟩],
    isLive := true,
    subscribedEpoch := 1 }

/-- C1: the claim states that a candidate received before the remote
description is set is buffered and later replayed, so the final
candidate set equals the arrived-after-description run.  The code
instead hands the candidate to the transport immediately; the transport
rejects it, the handler catches the rejection, and the candidate is
lost.  This evaluation runs the embedded handler on a Responder holding
a fresh connection: candidate 7 arrives before the offer, then offer 3
arrives and is applied; the final accepted candidate set is empty,
while the buffering contract modelled from the spec retains [7]. -/
theorem candidate_before_remote_description_lost :
    ((onmessage env0
        (onmessage env0 peerAwaitingOffer ⟨MsgType.candidate, 7, AppRole.HOST⟩)
        ⟨MsgType.offer, 3, AppRole.HOST⟩).conns[0]?).map Conn.remoteCandidates
      = some [] ∧
    (bufSetRemote (bufCandidate bufInit 7) 3).applied = [7] := by
  decide

/-- C8: a runAnalysis call made while a prior analysis is still in
flight returns without touching the state at all; in particular the
external analysis service is not invoked (the invocation count is
unchanged). -/
theorem runAnalysis_single_flight (s : AppState) (v c : Bool)
    (o : Except Unit Nat) (h : s.isAnalyzing = true) :
    runAnalysis s v c o = s := by
  simp [runAnalysis, h]

/-- C8 witness: a concrete busy state on which the guarded call is the
identity. -/
theorem runAnalysis_single_flight_witness :
    ({ initState with isAnalyzing := true } : AppState).isAnalyzing = true ∧
    runAnalysis { initState with isAnalyzing := true } true true (Except.ok 5)
      = { initState with isAnalyzing := true } :=
  ⟨rfl, runAnalysis_single_flight { initState with isAnalyzing := true } true true
    (Except.ok 5) rfl⟩

/-- C9: a failure of the external analysis service surfaces the error
message to the user and touches nothing of the negotiation state: role,
connection arena, current connection, live flag, local stream,
subscription epoch, published messages and history are unchanged, the
in-flight flag is cleared, and the service was invoked exactly once (no
automatic retry). -/
theorem analysis_failure_isolated (s : AppState) (h : s.isAnalyzing = false) :
    (runAnalysis s true true (Except.error ())).role = s.role ∧
    (runAnalysis s true true (Except.error ())).conns = s.conns ∧
    (runAnalysis s true true (Except.error ())).peerConnection = s.peerConnection ∧
    (runAnalysis s true true (Except.error ())).isLive = s.isLive ∧
    (runAnalysis s true true (Except.error ())).localStream = s.localStream ∧
    (runAnalysis s true true (Except.error ())).subscribedEpoch = s.subscribedEpoch ∧
    (runAnalysis s true true (Except.error ())).outbox = s.outbox ∧
    (runAnalysis s true true (Except.error ())).history = s.history ∧
    (runAnalysis s true true (Except.error ())).error = some aiError ∧
    (runAnalysis s true true (Except.error ())).isAnalyzing = false ∧
    (runAnalysis s true true (Except.error ())).analysisCalls = s.analysisCalls + 1 := by
  simp [runAnalysis, h]

/-- C9 witness: the failure path evaluated on an Initiator mid-session. -/
theorem analysis_failure_isolated_witness :
    hostAwaitingAnswer.isAnalyzing = false ∧
    (runAnalysis hostAwaitingAnswer true true (Except.error ())).role
      = hostAwaitingAnswer.role ∧
    (runAnalysis hostAwaitingAnswer true true (Except.error ())).conns
      = hostAwaitingAnswer.conns ∧
    (runAnalysis hostAwaitingAnswer true true (Except.error ())).error
      = some aiError :=
  ⟨rfl,
    (analysis_failure_isolated hostAwaitingAnswer rfl).1,
    (analysis_failure_isolated hostAwaitingAnswer rfl).2.1,
    (analysis_failure_isolated hostAwaitingAnswer rfl).2.2.2.2.2.2.2.2.1⟩

/-- C10: when no connection object exists, the offer and answer
handlers return silently: the state is unchanged, so no description is
applied, nothing is published and nothing observable moves. -/
theorem handlers_without_connection_silent (env : Env) (s : AppState)
    (p q : Nat) (h : s.peerConnection = none) :
    handleOffer env s p = s ∧ handleAnswer s q = s := by
  simp [handleOffer, handleAnswer, h]

/-- C10 witness: both handlers evaluated on the fresh state, which has
no connection. -/
theorem handlers_without_connection_silent_witness :
    initState.peerConnection = none ∧
    handleOffer env0 initState 3 = initState ∧
    handleAnswer initState 4 = initState :=
  ⟨rfl,
    (handlers_without_connection_silent env0 initState 3 4 rfl).1,
    (handlers_without_connection_silent env0 initState 3 4 rfl).2⟩

/-- C3: the message-handling guards.  A message is dropped with the
state unchanged while the role is IDLE; an offer is processed only when
the role is PEER, so an Initiator receiving an offer is left exactly
where it was; an answer is processed only when the role is HOST, so a
Responder receiving an answer is left exactly where it was; a candidate
is processed only when a connection exists. -/
theorem signaling_guards (env : Env) (s : AppState) (msg : Msg) :
    (s.role = AppRole.IDLE → onmessage env s msg = s) ∧
    (msg.type = MsgType.offer → s.role ≠ AppRole.PEER → onmessage env s msg = s) ∧
    (msg.type = MsgType.answer → s.role ≠ AppRole.HOST → onmessage env s msg = s) ∧
    (msg.type = MsgType.candidate → s.peerConnection = none → onmessage env s msg = s) := by
  refine ⟨fun h => by simp [onmessage, h], ?_, ?_, ?_⟩
  · intro ht hr
    simp [onmessage, ht, hr]
  · intro ht hr
    simp [onmessage, ht, hr]
  · intro ht hpc
    simp [onmessage, ht, hpc]

/-- C3 witness: an Initiator awaiting its answer ignores an incoming
offer, and a Responder awaiting its offer ignores an incoming answer. -/
theorem signaling_guards_witness :
    onmessage env0 hostAwaitingAnswer ⟨MsgType.offer, 3, AppRole.PEER⟩
      = hostAwaitingAnswer ∧
    onmessage env0 peerAwaitingOffer ⟨MsgType.answer, 4, AppRole.HOST⟩
      = peerAwaitingOffer :=
  ⟨(signaling_guards env0 hostAwaitingAnswer ⟨MsgType.offer, 3, AppRole.PEER⟩).2.1
      rfl (by decide),
   (signaling_guards env0 peerAwaitingOffer ⟨MsgType.answer, 4, AppRole.HOST⟩).2.2.1
      rfl (by decide)⟩

/-- C7 amended behavior: the handler never inspects the sender tag.  A
looped-back offer is nevertheless ignored whenever the receiver holds
the HOST role (the role guard requires PEER), and a looped-back answer
is ignored whenever the receiver holds the PEER role; but a looped-back
candidate passes the guard and is applied to the local connection
whenever one exists with a remote description set, regardless of the
sender tag. -/
theorem echo_messages_handling (env : Env) (s : AppState) (p : Nat) (sid : AppRole) :
    (s.role = AppRole.HOST → onmessage env s ⟨MsgType.offer, p, sid⟩ = s) ∧
    (s.role = AppRole.PEER → onmessage env s ⟨MsgType.answer, p, sid⟩ = s) ∧
    (∀ j c, s.role ≠ AppRole.IDLE → s.peerConnection = some j →
      s.conns[j]? = some c → c.remoteDesc.isSome = true →
      ((onmessage env s ⟨MsgType.candidate, p, sid⟩).conns[j]?).map Conn.remoteCandidates
        = some (c.remoteCandidates ++ [p])) := by
  refine ⟨fun h => by simp [onmessage, h], fun h => by simp [onmessage, h], ?_⟩
  intro j c hr hj hc hrd
  have hlt : j < s.conns.length := by
    rcases List.getElem?_eq_some.1 hc with ⟨h, _⟩
    exact h
  simp [onmessage, hr, hj, hc, addIceCandidate, hrd, List.getElem?_set_self hlt]

/-- C7 amended witness: a HOST mid-negotiation ignores a copy of an
offer carrying its own sender tag, and applies a candidate carrying its
own sender tag. -/
theorem echo_messages_handling_witness :
    onmessage env0
      { hostAwaitingAnswer with
          conns := [{ freshConn with localDesc := some 10, remoteDesc := some 3 }] }
      ⟨MsgType.offer, 10, AppRole.HOST⟩
      = { hostAwaitingAnswer with
          conns := [{ freshConn with localDesc := some 10, remoteDesc := some 3 }] } ∧
    ((onmessage env0
      { hostAwaitingAnswer with
          conns := [{ freshConn with localDesc := some 10, remoteDesc := some 3 }] }
      ⟨MsgType.candidate, 9, AppRole.HOST⟩).conns[0]?).map Conn.remoteCandidates
      = some [9] :=
  ⟨(echo_messages_handling env0
      { hostAwaitingAnswer with
          conns := [{ freshConn with localDesc := some 10, remoteDesc := some 3 }] }
      10 AppRole.HOST).1 rfl,
   (echo_messages_handling env0
      { hostAwaitingAnswer with
          conns := [{ freshConn with localDesc := some 10, remoteDesc := some 3 }] }
      9 AppRole.HOST).2.2 0 { freshConn with localDesc := some 10, remoteDesc := some 3 }
      (by decide) rfl rfl rfl⟩

/-- Updating the current connection only rewrites the connection arena,
preserving its length and every other field. -/
theorem updCurrent_eq (s : AppState) (f : Conn → Conn) :
    ∃ l, l.length = s.conns.length ∧ updCurrent s f = { s with conns := l } := by
  cases hpc : s.peerConnection with
  | none =>
    refine ⟨s.conns, rfl, ?_⟩
    have key : updCurrent s f = s := by simp only [updCurrent, hpc]
    exact key.trans (by rw [← hpc])
  | some j =>
    cases hc : s.conns[j]? with
    | none =>
      refine ⟨s.conns, rfl, ?_⟩
      have key : updCurrent s f = s := by simp only [updCurrent, hpc, hc]
      exact key.trans (by rw [← hpc])
    | some c =>
      refine ⟨s.conns.set j (f c), by simp, ?_⟩
      simp [updCurrent, hpc, hc]

/-- The cleanup routine rewrites the arena (same length), stops the
attached stream, drops the current connection and clears isLive, and
changes nothing else. -/
theorem cleanup_eq (s : AppState) :
    ∃ l, l.length = s.conns.length ∧
      cleanup s = { s with
        conns := l,
        localStream := s.localStream.map (fun _ => (⟨true⟩ : MediaStream)),
        peerConnection := none,
        isLive := false } := by
  obtain ⟨l, hl, he⟩ :=
    updCurrent_eq s (fun c => { c with connectionState := ConnState.closed })
  refine ⟨l, hl, ?_⟩
  unfold cleanup
  rw [he]

/-- The role-change effect cycle is cleanup plus the release of the old
subscription epoch. -/
theorem effectCycle_eq (s : AppState) :
    ∃ l, l.length = s.conns.length ∧
      effectCycle s = { s with
        conns := l,
        localStream := s.localStream.map (fun _ => (⟨true⟩ : MediaStream)),
        peerConnection := none,
        isLive := false,
        subscribedEpoch := s.subscribedEpoch + 1 } := by
  obtain ⟨l, hl, he⟩ := cleanup_eq s
  refine ⟨l, hl, ?_⟩
  unfold effectCycle
  rw [he]

/-- C4: ending the session from any non-IDLE state yields a state
equivalent to fresh IDLE: the role is IDLE, no connection object is
current, isLive is false, the tracks of any attached local stream are
stopped, and the signaling subscription of the old role epoch has been
released in favour of a fresh one. -/
theorem endSession_resets (s : AppState) (h : s.role ≠ AppRole.IDLE) :
    (endSession s).role = AppRole.IDLE ∧
    (endSession s).peerConnection = none ∧
    (endSession s).isLive = false ∧
    (endSession s).localStream.all MediaStream.stopped = true ∧
    (endSession s).subscribedEpoch = s.subscribedEpoch + 1 := by
  cases hpc : s.peerConnection with
  | none =>
    cases hls : s.localStream <;>
      simp [endSession, effectCycle, cleanup, updCurrent, hpc, hls]
  | some j =>
    cases hc : s.conns[j]? with
    | none =>
      cases hls : s.localStream <;>
        simp [endSession, effectCycle, cleanup, updCurrent, hpc, hc, hls]
    | some c =>
      cases hls : s.localStream <;>
        simp [endSession, effectCycle, cleanup, updCurrent, hpc, hc, hls]

/-- C4 witness: ending the session of an Initiator awaiting its
answer. -/
theorem endSession_resets_witness :
    hostAwaitingAnswer.role ≠ AppRole.IDLE ∧
    (endSession hostAwaitingAnswer).role = AppRole.IDLE ∧
    (endSession hostAwaitingAnswer).peerConnection = none ∧
    (endSession hostAwaitingAnswer).isLive = false ∧
    (endSession hostAwaitingAnswer).localStream.all MediaStream.stopped = true ∧
    (endSession hostAwaitingAnswer).subscribedEpoch
      = hostAwaitingAnswer.subscribedEpoch + 1 :=
  ⟨by decide, endSession_resets hostAwaitingAnswer (by decide)⟩

/-- C2 counterexample: the claim states that joinPeer is a no-op when
the role is already non-IDLE and that the second call creates no second
connection.  Starting a host session (role HOST, one connection) and
then calling joinPeer without an intervening endSession changes the
state and leaves a second connection in the arena; the first connection
is still in state new, never having been closed. -/
theorem joinPeer_after_startHost_not_noop :
    (startHostOk env0 initState).role ≠ AppRole.IDLE ∧
    (startHostOk env0 initState).conns.length = 1 ∧
    joinPeer (startHostOk env0 initState) ≠ startHostOk env0 initState ∧
    (joinPeer (startHostOk env0 initState)).conns.length = 2 ∧
    ((joinPeer (startHostOk env0 initState)).conns[0]?).map Conn.connectionState
      = some ConnState.new := by
  decide

/-- C2 amended behavior: joinPeer has no role guard.  From any state it
sets the role to PEER and appends a freshly created connection to the
arena, leaving every previously created connection untouched (in
particular an open one stays open and is orphaned); the role-change
effect cleanup then closes the connection just created and nulls the
current-connection ref, and the old subscription epoch is released.
Only the rendering layer prevents this call while the role is
non-IDLE. -/
theorem joinPeer_unguarded (s : AppState) :
    (joinPeer s).role = AppRole.PEER ∧
    (joinPeer s).conns
      = s.conns ++ [{ freshConn with connectionState := ConnState.closed }] ∧
    (joinPeer s).peerConnection = none ∧
    (joinPeer s).subscribedEpoch = s.subscribedEpoch + 1 := by
  unfold joinPeer effectCycle cleanup updCurrent createPeerConnection
  simp [List.getElem?_concat_length, List.set_append_right]

/-- C6 counterexample: the claim states that after a denied capture
device the role reverts toward IDLE or the attempt is abandoned without
a partially initialized session.  Evaluating the failing startHost from
the fresh state leaves the role at HOST (non-IDLE) with no connection
and no media: a half-initialized session that only an explicit
endSession can leave. -/
theorem media_denied_leaves_role_host :
    (startHostErr initState).role = AppRole.HOST ∧
    (startHostErr initState).role ≠ AppRole.IDLE ∧
    (startHostErr initState).peerConnection = none ∧
    (startHostErr initState).localStream = none ∧
    (startHostErr initState).error = some camError :=
  ⟨rfl, by decide, rfl, rfl, rfl⟩

/-- C6 amended behavior: when getUserMedia fails, the error is reported
to the user, no connection is created (the arena length is unchanged),
no stream is attached, isLive is false; but the role remains HOST
rather than reverting to IDLE. -/
theorem media_denied_behavior (s : AppState) :
    (startHostErr s).role = AppRole.HOST ∧
    (startHostErr s).error = some camError ∧
    (startHostErr s).peerConnection = none ∧
    (startHostErr s).isLive = false ∧
    (startHostErr s).conns.length = s.conns.length := by
  obtain ⟨l, hl, he⟩ := effectCycle_eq { s with role := AppRole.HOST }
  unfold startHostErr
  rw [he]
  exact ⟨rfl, rfl, rfl, rfl, hl⟩

/-- A HOST mid-session whose outbox holds a candidate message it
published itself; the connection has its remote description applied. -/
def selfEchoHost : AppState :=
  { initState with
    role := AppRole.HOST,
    isLive := true,
    conns := [{ freshConn with localDesc := some 10, remoteDesc := some 3 }],
    peerConnection := some 0,
    localStream := some ⟨false⟩,
    subscribedEpoch := 1,
    outbox := [⟨MsgType.candidate, 9, AppRole.HOST⟩] }

/-- C7 counterexample: the claim states that every self-originated echo
is ignored with the state unchanged.  Delivering back to selfEchoHost
the very candidate message sitting in its own outbox changes the state:
the candidate is applied to its own connection, because the handler
never inspects the sender. -/
theorem self_candidate_echo_applied :
    (⟨MsgType.candidate, 9, AppRole.HOST⟩ : Msg) ∈ selfEchoHost.outbox ∧
    onmessage env0 selfEchoHost ⟨MsgType.candidate, 9, AppRole.HOST⟩ ≠ selfEchoHost ∧
    ((onmessage env0 selfEchoHost
        ⟨MsgType.candidate, 9, AppRole.HOST⟩).conns[0]?).map Conn.remoteCandidates
      = some [9] := by
  decide

/-- The connection of a live host session, transport-confirmed. -/
def connectedConn : Conn :=
  { freshConn with
    localDesc := some 10, remoteDesc := some 3,
    connectionState := ConnState.connected }

/-- A host session the transport has confirmed connected. -/
def liveHost : AppState :=
  { initState with
    role := AppRole.HOST,
    isLive := true,
    conns := [connectedConn],
    peerConnection := some 0,
    localStream := some ⟨false⟩,
    subscribedEpoch := 1 }

/-- A host session in standby: connection created, nothing failed. -/
def standbyHost : AppState :=
  { initState with
    role := AppRole.HOST,
    conns := [{ freshConn with localDesc := some 10 }],
    peerConnection := some 0,
    localStream := some ⟨false⟩,
    subscribedEpoch := 1 }

/-- C5 counterexample: the claim states that consumers observe a failed
boolean that is true after the transport reports disconnected or
failed.  After a transport failure on a live host session, everything
the core publishes to its consumers is identical to what a standby
session publishes: there is no observable that distinguishes failure,
hence no failed flag is exposed. -/
theorem transport_failure_indistinguishable_from_standby :
    liveHost.isLive = true ∧
    (connStateChange liveHost ConnState.failed).isLive = false ∧
    published (connStateChange liveHost ConnState.failed) = published standbyHost := by
  decide

/-- C5 amended behavior: the lifecycle tracker derives a single boolean
isLive from the connectivity signal: set on connected, cleared on
disconnected or failed; the role is untouched by connectivity changes;
and what the core publishes after the change is exactly the role, the
isLive flag and the analysis-side fields, with no separate failed
observable. -/
theorem connectivity_single_live_flag (s : AppState) (cs : ConnState)
    (j : Nat) (c : Conn) (hj : s.peerConnection = some j)
    (hc : s.conns[j]? = some c) :
    (connStateChange s cs).role = s.role ∧
    (cs = ConnState.connected → (connStateChange s cs).isLive = true) ∧
    ((cs = ConnState.disconnected ∨ cs = ConnState.failed) →
      (connStateChange s cs).isLive = false) ∧
    published (connStateChange s cs)
      = (s.role, (connStateChange s cs).isLive, s.isAnalyzing, s.history, s.error) := by
  simp only [connStateChange, hj, hc]
  cases cs <;> simp [published]

/-- C5 amended witness: a confirmed-live host losing its transport. -/
theorem connectivity_single_live_flag_witness :
    (connStateChange liveHost ConnState.failed).role = AppRole.HOST ∧
    (connStateChange liveHost ConnState.failed).isLive = false :=
  ⟨(connectivity_single_live_flag liveHost ConnState.failed 0 connectedConn
      rfl rfl).1,
   (connectivity_single_live_flag liveHost ConnState.failed 0 connectedConn
      rfl rfl).2.2.1 (Or.inr rfl)⟩

end P2P
